import Mathlib

/-!
Verification of the wallet-connection state machine of
`packages/dev-frontend/src/components/WalletConnector.tsx` and the
provider registry (`createInjectedMetaMaskProvider` /
`createInjectedTallyProvider`) of the Liquity Tally wallet front-end.

The reducer `connectionReducer` is a pure function from
(ConnectionState, ConnectionAction) to ConnectionState; we embed it
directly, together with the two pre-configured `InjectedConnector`
instances from the connectors module.
-/

/-- An opaque wallet-provider handle.  In the source this is an
`InjectedConnector` (a subclass of `AbstractConnector`) configured with
an allow-list of supported chain ids; the reducer treats it as opaque
data, so the allow-list is the only observable attribute. -/
structure AbstractConnector where
  supportedChainIds : List Nat
  deriving DecidableEq, Repr

/-- `createInjectedMetaMaskProvider` from the connectors module:
`new InjectedConnector({ supportedChainIds: [1, 3, 4, 5, 42] })`
(mainnet, ropsten, rinkeby, goerli, kovan). -/
def createInjectedMetaMaskProvider : AbstractConnector :=
  { supportedChainIds := [1, 3, 4, 5, 42] }

/-- `createInjectedTallyProvider` from the connectors module:
`new InjectedConnector({ supportedChainIds: [1] })` (mainnet only). -/
def createInjectedTallyProvider : AbstractConnector :=
  { supportedChainIds := [1] }

/-- `export const injectedMetaMaskProvider = createInjectedMetaMaskProvider()`. -/
def injectedMetaMaskProvider : AbstractConnector := createInjectedMetaMaskProvider

/-- `export const injectedTallyProvider = createInjectedTallyProvider()`. -/
def injectedTallyProvider : AbstractConnector := createInjectedTallyProvider

/-- A JavaScript `Error`: the reducer only reads its `message` string. -/
structure JsError where
  message : String
  deriving DecidableEq, Repr

/-- The `ConnectionState` tagged union of `WalletConnector.tsx`:
`inactive` carries nothing; the other five variants each carry the
`connector` of the current attempt. -/
inductive ConnectionState
  | inactive
  | activating (connector : AbstractConnector)
  | active (connector : AbstractConnector)
  | rejectedByUser (connector : AbstractConnector)
  | alreadyPending (connector : AbstractConnector)
  | failed (connector : AbstractConnector)
  deriving DecidableEq, Repr

/-- The `ConnectionAction` tagged union of `WalletConnector.tsx`. -/
inductive ConnectionAction
  | startActivating (connector : AbstractConnector)
  | fail (error : JsError)
  | finishActivating
  | retry
  | cancel
  | deactivate
  deriving DecidableEq, Repr

/-- ASCII lower-casing of a single character, as JavaScript's
case-insensitive regex flag behaves on the ASCII-only patterns used by
the reducer. -/
def asciiToLower (c : Char) : Char :=
  if 'A' ≤ c ∧ c ≤ 'Z' then Char.ofNat (c.toNat + 32) else c

/-- `charsMatchAt pat s` holds when `pat` occurs at the front of `s`. -/
def charsMatchAt : List Char → List Char → Bool
  | [], _ => true
  | _ :: _, [] => false
  | p :: ps, c :: cs => p == c && charsMatchAt ps cs

/-- `charsContain s pat` holds when `pat` occurs somewhere inside `s`. -/
def charsContain : List Char → List Char → Bool
  | s, pat =>
    charsMatchAt pat s ||
      match s with
      | [] => false
      | _ :: t => charsContain t pat

/-- `msg.match(/pat/i)` is truthy, for a plain-text ASCII pattern `pat`:
case-insensitive substring search. -/
def regexTestCI (pat msg : String) : Bool :=
  charsContain (msg.data.map asciiToLower) (pat.data.map asciiToLower)

/-- The connector carried by a state, if any (`none` exactly on
`inactive`). -/
def ConnectionState.connector? : ConnectionState → Option AbstractConnector
  | .inactive => none
  | .activating c => some c
  | .active c => some c
  | .rejectedByUser c => some c
  | .alreadyPending c => some c
  | .failed c => some c

/-- The connector carried by a state, defaulting to `d` on `inactive`
(the `state.type === "inactive" ? injectedMetaMaskProvider :
state.connector` pattern of the source). -/
def ConnectionState.connectorD (s : ConnectionState) (d : AbstractConnector) :
    AbstractConnector :=
  match s.connector? with
  | none => d
  | some c => c

/-- `connectionReducer` of `WalletConnector.tsx`, case by case:
`startActivating` always moves to `activating` with the action's
connector; `finishActivating` always moves to `active`, defaulting the
connector to `injectedMetaMaskProvider` when the state is `inactive`;
`fail` classifies the error message in a non-`inactive` state and falls
through (returning the state unchanged, after logging) in `inactive`;
`retry` re-enters `activating` from a non-`inactive` state and falls
through in `inactive`; `cancel` and `deactivate` always reset to
`inactive`. -/
def connectionReducer (state : ConnectionState) (action : ConnectionAction) :
    ConnectionState :=
  match action with
  | .startActivating c => .activating c
  | .finishActivating => .active (state.connectorD injectedMetaMaskProvider)
  | .fail e =>
    match state.connector? with
    | none => state
    | some c =>
      if regexTestCI "user rejected" e.message then .rejectedByUser c
      else if regexTestCI "already pending" e.message then .alreadyPending c
      else .failed c
  | .retry =>
    match state.connector? with
    | none => state
    | some c => .activating c
  | .cancel => .inactive
  | .deactivate => .inactive

/-- Claim C1: for every state `s ≠ Inactive` and every error `e`,
`reduce(s, Fail(e))` carries the same connector as `s`, and its variant
is `RejectedByUser` if the message matches "user rejected"
case-insensitively, else `AlreadyPending` if it matches
"already pending" case-insensitively, else `Failed`. -/
theorem fail_classifies_and_keeps_connector (s : ConnectionState) (e : JsError)
    (h : s ≠ ConnectionState.inactive) :
    ∃ c, s.connector? = some c ∧
      connectionReducer s (ConnectionAction.fail e) =
        (if regexTestCI "user rejected" e.message then ConnectionState.rejectedByUser c
         else if regexTestCI "already pending" e.message then ConnectionState.alreadyPending c
         else ConnectionState.failed c) := by
  cases s with
  | inactive => exact absurd rfl h
  | activating c => exact ⟨c, rfl, rfl⟩
  | active c => exact ⟨c, rfl, rfl⟩
  | rejectedByUser c => exact ⟨c, rfl, rfl⟩
  | alreadyPending c => exact ⟨c, rfl, rfl⟩
  | failed c => exact ⟨c, rfl, rfl⟩

/-- Witness for C1, at the state `Activating(tally)` and the error
message "User Rejected" (which classifies to `RejectedByUser`). -/
theorem fail_classifies_and_keeps_connector_witness :
    ∃ c, (ConnectionState.activating injectedTallyProvider).connector? = some c ∧
      connectionReducer (ConnectionState.activating injectedTallyProvider)
          (ConnectionAction.fail (JsError.mk "User Rejected")) =
        (if regexTestCI "user rejected" (JsError.mk "User Rejected").message then
          ConnectionState.rejectedByUser c
         else if regexTestCI "already pending" (JsError.mk "User Rejected").message then
          ConnectionState.alreadyPending c
         else ConnectionState.failed c) :=
  fail_classifies_and_keeps_connector (ConnectionState.activating injectedTallyProvider)
    (JsError.mk "User Rejected") (by simp)

/-- Claim C2: `FinishActivating` always yields an `Active` state; from
`Inactive` the connector defaults to the MetaMask provider handle, and
otherwise the current state's connector carries over, so in particular
`reduce(Activating(c), FinishActivating) = Active(c)`. -/
theorem finishActivating_always_active (s : ConnectionState) (c : AbstractConnector) :
    connectionReducer s ConnectionAction.finishActivating =
      ConnectionState.active (s.connectorD injectedMetaMaskProvider) ∧
    connectionReducer ConnectionState.inactive ConnectionAction.finishActivating =
      ConnectionState.active injectedMetaMaskProvider ∧
    connectionReducer (ConnectionState.activating c) ConnectionAction.finishActivating =
      ConnectionState.active c :=
  ⟨rfl, rfl, rfl⟩

/-- Claim C3: `Cancel` and `Deactivate` both reset every state to
`Inactive` in a single step. -/
theorem cancel_deactivate_reset (s : ConnectionState) :
    connectionReducer s ConnectionAction.cancel = ConnectionState.inactive ∧
    connectionReducer s ConnectionAction.deactivate = ConnectionState.inactive :=
  ⟨rfl, rfl⟩

/-- Claim C4: `Retry` from a non-`Inactive` state (i.e. one carrying a
connector) re-enters `Activating` with the same connector, while
`Retry` in `Inactive` is a no-op. -/
theorem retry_reenters_activating (s : ConnectionState) :
    connectionReducer ConnectionState.inactive ConnectionAction.retry =
      ConnectionState.inactive ∧
    ∀ c, s.connector? = some c →
      connectionReducer s ConnectionAction.retry = ConnectionState.activating c := by
  refine ⟨rfl, fun c hc => ?_⟩
  cases s <;> simp_all [connectionReducer, ConnectionState.connector?]

/-- Witness for C4: `Retry` in `Failed(metamask)` yields
`Activating(metamask)`, and `Retry` in `Inactive` stays `Inactive`. -/
theorem retry_reenters_activating_witness :
    connectionReducer ConnectionState.inactive ConnectionAction.retry =
      ConnectionState.inactive ∧
    connectionReducer (ConnectionState.failed injectedMetaMaskProvider)
      ConnectionAction.retry = ConnectionState.activating injectedMetaMaskProvider :=
  ⟨(retry_reenters_activating ConnectionState.inactive).1,
   (retry_reenters_activating (ConnectionState.failed injectedMetaMaskProvider)).2
     injectedMetaMaskProvider rfl⟩

/-- Claim C5: a `Fail` action arriving in `Inactive` leaves the state
unchanged for every error. -/
theorem fail_inactive_noop (e : JsError) :
    connectionReducer ConnectionState.inactive (ConnectionAction.fail e) =
      ConnectionState.inactive :=
  rfl

/-- Claim C6: the reducer is closed over the six named variants, every
non-`Inactive` result carries a connector, and the uncovered
state/action combinations (`Fail` and `Retry` in `Inactive`) return the
input state unchanged. -/
theorem reducer_closed_and_defensive (s : ConnectionState) (a : ConnectionAction) :
    (connectionReducer s a = ConnectionState.inactive ∨
      ∃ c, (connectionReducer s a).connector? = some c) ∧
    (∀ e, connectionReducer ConnectionState.inactive (ConnectionAction.fail e) =
      ConnectionState.inactive) ∧
    connectionReducer ConnectionState.inactive ConnectionAction.retry =
      ConnectionState.inactive := by
  refine ⟨?_, fun _ => rfl, rfl⟩
  cases h : connectionReducer s a with
  | inactive => exact Or.inl rfl
  | activating c => exact Or.inr ⟨c, rfl⟩
  | active c => exact Or.inr ⟨c, rfl⟩
  | rejectedByUser c => exact Or.inr ⟨c, rfl⟩
  | alreadyPending c => exact Or.inr ⟨c, rfl⟩
  | failed c => exact Or.inr ⟨c, rfl⟩

/-- Claim C7: `StartActivating(c)` unconditionally moves every state to
`Activating(c)` with the connector supplied in the action. -/
theorem startActivating_unconditional (s : ConnectionState) (c : AbstractConnector) :
    connectionReducer s (ConnectionAction.startActivating c) =
      ConnectionState.activating c :=
  rfl

/-- Claim C8: `Deactivate` is idempotent: it yields `Inactive` from
every state, a second application also yields `Inactive`, and the
second application changes nothing. -/
theorem deactivate_idempotent (s : ConnectionState) :
    connectionReducer s ConnectionAction.deactivate = ConnectionState.inactive ∧
    connectionReducer (connectionReducer s ConnectionAction.deactivate)
      ConnectionAction.deactivate = ConnectionState.inactive ∧
    connectionReducer (connectionReducer s ConnectionAction.deactivate)
      ConnectionAction.deactivate = connectionReducer s ConnectionAction.deactivate :=
  ⟨rfl, rfl, rfl⟩

/-- Claim C9: the provider registry exposes exactly the two handles
produced by its two constructors: the MetaMask handle allow-lists
exactly five distinct network identifiers and the Tally handle exactly
one. -/
theorem provider_registry_config :
    injectedMetaMaskProvider = createInjectedMetaMaskProvider ∧
    injectedTallyProvider = createInjectedTallyProvider ∧
    injectedMetaMaskProvider.supportedChainIds = [1, 3, 4, 5, 42] ∧
    injectedMetaMaskProvider.supportedChainIds.length = 5 ∧
    injectedMetaMaskProvider.supportedChainIds.Nodup ∧
    injectedTallyProvider.supportedChainIds = [1] ∧
    injectedTallyProvider.supportedChainIds.length = 1 ∧
    injectedTallyProvider.supportedChainIds.Nodup :=
  ⟨rfl, rfl, rfl, rfl, by decide, rfl, rfl, by decide⟩

/-- Claim C10: `Retry` is idempotent: applying it twice in a row gives
the same state as applying it once. -/
theorem retry_idempotent (s : ConnectionState) :
    connectionReducer (connectionReducer s ConnectionAction.retry)
      ConnectionAction.retry = connectionReducer s ConnectionAction.retry := by
  cases s <;> rfl
